import Mathlib

/-
Verification of the keyvalue store engine (append-only log key-value store).

The development shallowly embeds the Go implementation of the Store
(`keyvalue.go`): the on-disk log is a list of parsed `Entry` records, the
in-memory Go map `s.data` is an association list with map semantics
(insert replaces, erase removes all occurrences), and file I/O outcomes
(append success, temp-file creation) are explicit boolean parameters.
Serialization (json.Marshal of an Entry of plain strings) never fails in
the source and is modelled as always succeeding; a failed file append is
modelled as leaving the log unchanged (atomic append). Go byte lengths of
strings are modelled with `String.utf8ByteSize`.
-/

namespace KeyValue

/-- One record of the log: a key-value pair, with optional delete flag
(struct `Entry` in the source). -/
structure Entry where
  key : String
  value : String
  deleted : Bool
  deriving DecidableEq, Repr

/-- The in-memory Go `map[string]string`, modelled as an association list. -/
abbrev KVMap := List (String × String)

/-- Go map lookup `m[k]` on the association-list model. -/
def mapFind? : KVMap → String → Option String
  | [], _ => none
  | p :: m, k => if p.1 = k then some p.2 else mapFind? m k

/-- Go `delete(m, k)`: remove every binding of `k`. -/
def mapErase : KVMap → String → KVMap
  | [], _ => []
  | p :: m, k => if p.1 = k then mapErase m k else p :: mapErase m k

/-- Go map assignment `m[k] = v`: replace any existing binding of `k`. -/
def mapInsert (m : KVMap) (k v : String) : KVMap :=
  mapErase m k ++ [(k, v)]

/-- Error outcomes of the store operations, one constructor per `return
fmt.Errorf(...)` site of the source (`Set` / `Delete`). -/
inductive KVError where
  | validationKey
  | validationValue
  | capacity
  | ioWrite
  deriving DecidableEq, Repr

/-- The `Store` struct: `data` is the optional in-memory map, `log` the
parsed contents of the log file, `fileClosed` whether the store's file
handle has been closed (`s.file.Close()`). -/
structure Store where
  data : KVMap
  useMemory : Bool
  log : List Entry
  fileClosed : Bool
  maxKeys : Nat
  maxKeySize : Nat
  maxValueSize : Nat
  deriving DecidableEq, Repr

/-- One step of log replay: a tombstone removes the key from the working
map, a non-tombstone record sets/overwrites it (the loop body shared by
`load` and the §4.2 replay semantics). -/
def applyEntry (m : KVMap) (e : Entry) : KVMap :=
  if e.deleted then mapErase m e.key else mapInsert m e.key e.value

/-- Full replay of a log from the empty map: the canonical state of the
log (one live binding per key, last write wins, tombstone removes). -/
def replay (log : List Entry) : KVMap :=
  log.foldl applyEntry []

/-- The loop of `Store.load`: apply each record in order, but stop
(`break`) as soon as the working map exceeds `maxKeys` — the literal
source behaviour, including its early termination. -/
def loadScan (maxKeys : Nat) : KVMap → List Entry → KVMap
  | m, [] => m
  | m, e :: rest =>
    let m1 := applyEntry m e
    if m1.length > maxKeys then m1 else loadScan maxKeys m1 rest

/-- `NewStore`: open-or-create the log file (`log` is its current parsed
contents, `[]` for a fresh file) and, when memory mode is enabled, build
the in-memory map by `load`'s scan. -/
def NewStore (log : List Entry) (useMemory : Bool)
    (maxKeys maxKeySize maxValueSize : Nat) : Store :=
  let s : Store :=
    { data := [], useMemory := useMemory, log := log, fileClosed := false,
      maxKeys := maxKeys, maxKeySize := maxKeySize, maxValueSize := maxValueSize }
  if useMemory then { s with data := loadScan maxKeys [] log } else s

/-- `Store.Set`: validate key and value sizes, check the max-keys limit
(`s.useMemory && len(s.data) >= s.maxKeys`), append the record to the log
file (`appendOk` models the `WriteString` outcome; writing on a closed
handle fails), and only after a successful append update the in-memory
map. -/
def Store.Set (s : Store) (key value : String) (appendOk : Bool) :
    Store × Option KVError :=
  if key.utf8ByteSize > s.maxKeySize then (s, some KVError.validationKey)
  else if value.utf8ByteSize > s.maxValueSize then (s, some KVError.validationValue)
  else if s.useMemory = true ∧ s.maxKeys ≤ s.data.length then (s, some KVError.capacity)
  else if appendOk = true ∧ s.fileClosed = false then
    let s1 : Store := { s with log := s.log ++ [Entry.mk key value false] }
    if s.useMemory then ({ s1 with data := mapInsert s1.data key value }, none)
    else (s1, none)
  else (s, some KVError.ioWrite)

/-- `Store.Get`: in memory mode, a map lookup; in file-only mode, a full
ordered scan of the log tracking the last-seen state for `key`
(`lastValue` / `exists` in the source, a tombstone resetting to absent),
returned only after the scan completes. -/
def Store.Get (s : Store) (key : String) : Option String :=
  if s.useMemory then mapFind? s.data key
  else
    s.log.foldl
      (fun acc e =>
        if e.key = key then (if e.deleted then none else some e.value) else acc)
      none

/-- `Store.Delete`: append a tombstone record unconditionally (no size or
capacity checks), then remove the key from the in-memory map when memory
mode is enabled. -/
def Store.Delete (s : Store) (key : String) (appendOk : Bool) :
    Store × Option KVError :=
  if appendOk = true ∧ s.fileClosed = false then
    let s1 : Store := { s with log := s.log ++ [Entry.mk key "" true] }
    if s.useMemory then ({ s1 with data := mapErase s1.data key }, none)
    else (s1, none)
  else (s, some KVError.ioWrite)

/-- `Store.Compact`: dump the in-memory map `s.data` into a temporary
file, rename it over the log, and reopen the handle (`createOk` models
the temp-file creation outcome; on failure the function returns with the
log untouched). -/
def Store.Compact (s : Store) (createOk : Bool) : Store :=
  if createOk then
    { s with log := s.data.map (fun p => Entry.mk p.1 p.2 false),
             fileClosed := false }
  else s

/-- `Store.Close`: close the store's file handle. Nothing else in the
store is marked closed. -/
def Store.Close (s : Store) : Store :=
  { s with fileClosed := true }

/-- The `results` map built by `Store.FindByFunction`: matches from the
in-memory map, and — in file-only mode — matches from a raw scan of the
log lines that skips tombstone records. -/
def findResults (s : Store) (fn : String → String → Bool) : KVMap :=
  if s.useMemory then
    s.data.foldl (fun r p => if fn p.1 p.2 then mapInsert r p.1 p.2 else r) []
  else
    s.log.foldl
      (fun r e =>
        if e.deleted then r
        else if fn e.key e.value then mapInsert r e.key e.value else r)
      (s.data.foldl (fun r p => if fn p.1 p.2 then mapInsert r p.1 p.2 else r) [])

/-- `Store.FindByFunction`: collect the matching entries; an empty result
list is surfaced as an error (`none`). -/
def Store.FindByFunction (s : Store) (fn : String → String → Bool) :
    Option (List Entry) :=
  if ((findResults s fn).map (fun p => Entry.mk p.1 p.2 false)).isEmpty then none
  else some ((findResults s fn).map (fun p => Entry.mk p.1 p.2 false))

theorem mapFind_erase (m : KVMap) (k key : String) :
    mapFind? (mapErase m k) key = if key = k then none else mapFind? m key := by
  induction m with
  | nil => simp [mapErase, mapFind?]
  | cons p m ih =>
    by_cases h2 : key = k
    · subst h2
      by_cases h1 : p.1 = key <;> simp [mapErase, mapFind?, h1, ih]
    · by_cases h1 : p.1 = k
      · have h3 : ¬ p.1 = key := fun hc => h2 (hc.symm.trans h1)
        have h4 : ¬ k = key := fun hc => h2 hc.symm
        simp [mapErase, mapFind?, h1, h2, h3, h4, ih]
      · by_cases h3 : p.1 = key
        · simp [mapErase, mapFind?, h1, h2, h3]
        · simp [mapErase, mapFind?, h1, h2, h3, ih]

theorem mapFind_append (l1 l2 : KVMap) (key : String) :
    mapFind? (l1 ++ l2) key =
      (match mapFind? l1 key with
       | some v => some v
       | none => mapFind? l2 key) := by
  induction l1 with
  | nil => simp [mapFind?]
  | cons p l ih =>
    by_cases h : p.1 = key <;> simp [mapFind?, h, ih]

theorem mapFind_insert (m : KVMap) (k v key : String) :
    mapFind? (mapInsert m k v) key = if key = k then some v else mapFind? m key := by
  rw [mapInsert, mapFind_append, mapFind_erase]
  by_cases h : key = k
  · simp [mapFind?, h]
  · have h2 : k ≠ key := fun hc => h hc.symm
    cases hm : mapFind? m key <;> simp [mapFind?, h, h2, hm]

theorem applyEntry_find (m : KVMap) (e : Entry) (key : String) :
    mapFind? (applyEntry m e) key =
      if e.key = key then (if e.deleted then none else some e.value)
      else mapFind? m key := by
  unfold applyEntry
  by_cases hd : e.deleted
  · by_cases hk : e.key = key
    · simp [hd, hk, mapFind_erase]
    · have hk2 : ¬ key = e.key := fun hc => hk hc.symm
      simp [hd, hk, hk2, mapFind_erase]
  · by_cases hk : e.key = key
    · simp [hd, hk, mapFind_insert]
    · have hk2 : ¬ key = e.key := fun hc => hk hc.symm
      simp [hd, hk, hk2, mapFind_insert]

theorem getScan_eq_replayScan (key : String) (log : List Entry) :
    ∀ m : KVMap,
      log.foldl
          (fun acc e =>
            if e.key = key then (if e.deleted then none else some e.value) else acc)
          (mapFind? m key)
        = mapFind? (log.foldl applyEntry m) key := by
  induction log with
  | nil => intro m; rfl
  | cons e rest ih =>
    intro m
    simp only [List.foldl_cons]
    rw [show (if e.key = key then (if e.deleted then none else some e.value)
              else mapFind? m key)
          = mapFind? (applyEntry m e) key from (applyEntry_find m e key).symm]
    exact ih (applyEntry m e)

/-- Claim C1 (refuted on the code): with memory mode disabled the in-memory
map is never populated, so `Compact` rewrites the log from the empty map:
on a store over the one-record log `[{"k","v"}]` the compacted log is
empty, `Get "k"` turns from `some "v"` into `none`, and the canonical
state `replay` of the original log (namely `{"k" ↦ "v"}`) is lost — the
code performs no replay scan before rewriting. -/
theorem C1_compact_unindexed_loses_data :
    (NewStore [Entry.mk "k" "v" false] false 10 10 10).Get "k" = some "v" ∧
    replay (NewStore [Entry.mk "k" "v" false] false 10 10 10).log = [("k", "v")] ∧
    ((NewStore [Entry.mk "k" "v" false] false 10 10 10).Compact true).log = [] ∧
    ((NewStore [Entry.mk "k" "v" false] false 10 10 10).Compact true).Get "k" = none := by
  decide

/-- Claim C2 counterexample: a memory-mode store with `maxKeys = 1`
holding exactly the key `"a"`; a `Set` overwriting the already-present
key `"a"` is rejected with the capacity error, contradicting the claim
that the capacity check never rejects overwrites of existing keys. -/
theorem C2_overwrite_at_capacity_rejected :
    mapFind? (((NewStore [] true 1 10 10).Set "a" "1" true).1).data "a" = some "1" ∧
    (((NewStore [] true 1 10 10).Set "a" "1" true).1).data.length = 1 ∧
    ((((NewStore [] true 1 10 10).Set "a" "1" true).1).Set "a" "2" true).2
      = some KVError.capacity := by
  decide

/-- Claim C3 (refuted on the code): building the index over the log
`[a↦1, b↦2, tombstone a]` with `maxKeys = 1` stops mid-replay as soon as
the working map exceeds one key (`break` in `load`), leaving the index
`{a ↦ 1, b ↦ 2}` — which both exceeds `maxKeys` and differs from the full
replay `{b ↦ 2}`: the construction-time replay silently truncates instead
of processing every record or applying an explicit policy. -/
theorem C3_load_truncates_replay :
    (NewStore [Entry.mk "a" "1" false, Entry.mk "b" "2" false, Entry.mk "a" "" true]
        true 1 10 10).data = [("a", "1"), ("b", "2")] ∧
    replay [Entry.mk "a" "1" false, Entry.mk "b" "2" false, Entry.mk "a" "" true]
      = [("b", "2")] ∧
    (NewStore [Entry.mk "a" "1" false, Entry.mk "b" "2" false, Entry.mk "a" "" true]
        true 1 10 10).data
      ≠ replay [Entry.mk "a" "1" false, Entry.mk "b" "2" false, Entry.mk "a" "" true] := by
  decide

/-- Claim C4 (refuted on the code): in file-only mode `FindByFunction`
scans raw log lines, merely skipping tombstone records. Over the log
`[k↦v, tombstone k]` the always-true predicate returns the deleted key
`k` with its stale value `v` although the canonical state is empty (and
`Get "k"` is already absent); over the log `[k↦v, k↦w]` the predicate
`value = "v"` matches the stale record and returns `k ↦ v` although the
latest value of `k` is `"w"`. -/
theorem C4_find_scans_raw_lines :
    (NewStore [Entry.mk "k" "v" false, Entry.mk "k" "" true] false 10 10 10).FindByFunction
        (fun _ _ => true) = some [Entry.mk "k" "v" false] ∧
    replay [Entry.mk "k" "v" false, Entry.mk "k" "" true] = [] ∧
    (NewStore [Entry.mk "k" "v" false, Entry.mk "k" "" true] false 10 10 10).Get "k"
      = none ∧
    (NewStore [Entry.mk "k" "v" false, Entry.mk "k" "w" false] false 10 10 10).FindByFunction
        (fun _ v => v == "v") = some [Entry.mk "k" "v" false] := by
  decide

/-- Claim C5 (refuted on the code): `Close` only closes the file handle
and records no closed state, and no operation checks for one. After
`Set "a" "1"` and `Close`, the memory-mode `Get "a"` still succeeds with
`"1"`, and `Compact` still succeeds — rewriting the log and even
reopening the handle — instead of failing with a closed-store error. -/
theorem C5_operations_succeed_after_close :
    (((NewStore [] true 10 10 10).Set "a" "1" true).1.Close).fileClosed = true ∧
    (((NewStore [] true 10 10 10).Set "a" "1" true).1.Close).Get "a" = some "1" ∧
    ((((NewStore [] true 10 10 10).Set "a" "1" true).1.Close).Compact true).log
      = [Entry.mk "a" "1" false] ∧
    ((((NewStore [] true 10 10 10).Set "a" "1" true).1.Close).Compact true).fileClosed
      = false := by
  decide

/-- Claim C7 (refuted on the code): after the identical sequence
`Set "k" "v"; Delete "k"` on a memory-mode store and on an unindexed
store with the same limits, the two `Get "k"` results agree (both
absent), but `FindByFunction` with the always-true predicate diverges:
the memory-mode store reports no matches while the unindexed store
returns the deleted key's stale record — the modes are not
observationally equivalent. -/
theorem C7_mode_equivalence_fails :
    ((((NewStore [] true 10 10 10).Set "k" "v" true).1.Delete "k" true).1.Get "k")
      = ((((NewStore [] false 10 10 10).Set "k" "v" true).1.Delete "k" true).1.Get "k") ∧
    ((((NewStore [] true 10 10 10).Set "k" "v" true).1.Delete "k" true).1.FindByFunction
        (fun _ _ => true)) = none ∧
    ((((NewStore [] false 10 10 10).Set "k" "v" true).1.Delete "k" true).1.FindByFunction
        (fun _ _ => true)) = some [Entry.mk "k" "v" false] := by
  decide

/-- Claim C2 as amended: with memory mode enabled and the index holding at
least `maxEntries` keys, a `Set` whose key and value are within the size
limits fails with the capacity error for every key — including a key
already present in the index — and leaves the store unchanged; the
capacity check does not exempt overwrites of existing keys. -/
theorem C2_capacity_rejects_all_keys (s : Store) (key value : String) (ok : Bool)
    (hmem : s.useMemory = true) (hfull : s.maxKeys ≤ s.data.length)
    (hk : key.utf8ByteSize ≤ s.maxKeySize) (hv : value.utf8ByteSize ≤ s.maxValueSize) :
    (s.Set key value ok).2 = some KVError.capacity ∧ (s.Set key value ok).1 = s := by
  have h1 : ¬ key.utf8ByteSize > s.maxKeySize := Nat.not_lt.mpr hk
  have h2 : ¬ value.utf8ByteSize > s.maxValueSize := Nat.not_lt.mpr hv
  simp [Store.Set, h1, h2, hmem, hfull]

/-- Witness for the amended C2: a memory-mode store with `maxKeys = 1`
holding the key `"a"`; overwriting `"a"` is rejected with the capacity
error and the store is unchanged. -/
theorem C2_capacity_rejects_all_keys_witness :
    ((((NewStore [] true 1 10 10).Set "a" "1" true).1).Set "a" "2" true).2
        = some KVError.capacity ∧
    ((((NewStore [] true 1 10 10).Set "a" "1" true).1).Set "a" "2" true).1
        = ((NewStore [] true 1 10 10).Set "a" "1" true).1 :=
  C2_capacity_rejects_all_keys (((NewStore [] true 1 10 10).Set "a" "1" true).1)
    "a" "2" true (by decide) (by decide) (by decide) (by decide)

/-- Claim C6: in file-only mode, `Get` scans the entire log tracking the
last-seen state for the key and returns the state after the full scan —
equivalently, its result is exactly the lookup in the canonical replayed
state of the log; in particular, after `Set k "v"; Delete k; Set k "w"`
the result is `"w"`, and after `Set k "v"; Delete k` the key is absent. -/
theorem C6_get_unindexed_is_replay (s : Store) (key : String)
    (h : s.useMemory = false) :
    s.Get key = mapFind? (replay s.log) key ∧
    (((((NewStore [] false 10 10 10).Set "k" "v" true).1.Delete "k" true).1.Set
        "k" "w" true).1.Get "k") = some "w" ∧
    ((((NewStore [] false 10 10 10).Set "k" "v" true).1.Delete "k" true).1.Get "k")
      = none := by
  refine ⟨?_, by decide, by decide⟩
  unfold Store.Get replay
  rw [h]
  simp only [Bool.false_eq_true, if_false]
  exact getScan_eq_replayScan key s.log []

/-- Witness for C6: the full-scan `Get` on a concrete unindexed store
agrees with the canonical replay lookup, and the tombstone-then-rewrite
scenarios hold. -/
theorem C6_get_unindexed_is_replay_witness :
    (NewStore [Entry.mk "a" "1" false] false 5 5 5).Get "a"
        = mapFind? (replay (NewStore [Entry.mk "a" "1" false] false 5 5 5).log) "a" ∧
    (((((NewStore [] false 10 10 10).Set "k" "v" true).1.Delete "k" true).1.Set
        "k" "w" true).1.Get "k") = some "w" ∧
    ((((NewStore [] false 10 10 10).Set "k" "v" true).1.Delete "k" true).1.Get "k")
      = none :=
  C6_get_unindexed_is_replay (NewStore [Entry.mk "a" "1" false] false 5 5 5) "a" rfl

/-- Claim C8: whenever `Set` returns an error — size validation, the
capacity check, or a failed append — the store (its log and its index
both) is left exactly as it was before the call. -/
theorem C8_set_error_leaves_store_unchanged (s : Store) (key value : String)
    (ok : Bool) (e : KVError) (h : (s.Set key value ok).2 = some e) :
    (s.Set key value ok).1 = s := by
  by_cases h1 : key.utf8ByteSize > s.maxKeySize
  · simp [Store.Set, h1]
  · by_cases h2 : value.utf8ByteSize > s.maxValueSize
    · simp [Store.Set, h1, h2]
    · by_cases h3 : s.useMemory = true ∧ s.maxKeys ≤ s.data.length
      · simp [Store.Set, h1, h2, h3]
      · by_cases h4 : ok = true ∧ s.fileClosed = false
        · exfalso
          by_cases h5 : s.useMemory
          · have h6 : ¬ s.maxKeys ≤ s.data.length := fun hc => h3 ⟨h5, hc⟩
            simp [Store.Set, h1, h2, h3, h4, h5, h6] at h
          · simp [Store.Set, h1, h2, h3, h4, h5] at h
        · simp [Store.Set, h1, h2, h3, h4]

/-- Witness for C8: a `Set` rejected by key-size validation (key of three
bytes against `maxKeyBytes = 2`) leaves the fresh store unchanged. -/
theorem C8_set_error_leaves_store_unchanged_witness :
    ((NewStore [] true 1 2 2).Set "abc" "x" true).1 = NewStore [] true 1 2 2 :=
  C8_set_error_leaves_store_unchanged (NewStore [] true 1 2 2) "abc" "x" true
    KVError.validationKey (by decide)

/-- Claim C9: `Delete` performs no validation at all — it never returns
the key-size, value-size, or capacity error for any key or store state,
and when the append succeeds it returns success and appends exactly a
tombstone record for the key. -/
theorem C9_delete_never_validates (s : Store) (key : String) (ok : Bool)
    (h : s.fileClosed = false) :
    (s.Delete key ok).2 ≠ some KVError.validationKey ∧
    (s.Delete key ok).2 ≠ some KVError.validationValue ∧
    (s.Delete key ok).2 ≠ some KVError.capacity ∧
    (ok = true →
      (s.Delete key ok).2 = none ∧
      (s.Delete key ok).1.log = s.log ++ [Entry.mk key "" true]) := by
  by_cases hok : ok = true
  · subst hok
    by_cases hm : s.useMemory <;> simp [Store.Delete, h, hm]
  · simp [Store.Delete, h, hok]

/-- Witness for C9: on a store at its capacity (`maxKeys = 1`, one key
present, `maxKeyBytes = 1`), deleting the five-byte key `"xyzzy"`
succeeds and appends a tombstone — no validation or capacity error. -/
theorem C9_delete_never_validates_witness :
    ((((NewStore [] true 1 1 1).Set "a" "b" true).1).Delete "xyzzy" true).2
        ≠ some KVError.validationKey ∧
    ((((NewStore [] true 1 1 1).Set "a" "b" true).1).Delete "xyzzy" true).2
        ≠ some KVError.validationValue ∧
    ((((NewStore [] true 1 1 1).Set "a" "b" true).1).Delete "xyzzy" true).2
        ≠ some KVError.capacity ∧
    (true = true →
      ((((NewStore [] true 1 1 1).Set "a" "b" true).1).Delete "xyzzy" true).2 = none ∧
      ((((NewStore [] true 1 1 1).Set "a" "b" true).1).Delete "xyzzy" true).1.log
        = (((NewStore [] true 1 1 1).Set "a" "b" true).1).log
            ++ [Entry.mk "xyzzy" "" true]) :=
  C9_delete_never_validates (((NewStore [] true 1 1 1).Set "a" "b" true).1)
    "xyzzy" true (by decide)

theorem entries_from_map_all_live (l : KVMap) :
    (l.map (fun p => Entry.mk p.1 p.2 false)).all (fun e => !e.deleted) = true := by
  induction l with
  | nil => rfl
  | cons p l ih => simpa using ih

/-- Claim C10: every entry of a successful `FindByFunction` result has
`deleted = false` — the result list never contains a tombstone entry. -/
theorem C10_find_results_never_deleted (s : Store) (fn : String → String → Bool)
    (res : List Entry) (h : s.FindByFunction fn = some res) :
    res.all (fun e => !e.deleted) = true := by
  unfold Store.FindByFunction at h
  split at h
  · simp at h
  · injection h with h1
    subst h1
    exact entries_from_map_all_live _

/-- Witness for C10: the concrete result of `FindByFunction` on a
one-key store consists of non-deleted entries only. -/
theorem C10_find_results_never_deleted_witness :
    ([Entry.mk "a" "1" false] : List Entry).all (fun e => !e.deleted) = true :=
  C10_find_results_never_deleted (((NewStore [] true 10 10 10).Set "a" "1" true).1)
    (fun _ _ => true) [Entry.mk "a" "1" false] (by decide)

end KeyValue
